import Mathlib

/-!
# Verification of the HeyGen avatar client (`src/pipecat/services/heygen/client.py`)

Shallow embedding of `HeyGenClient`. The embedding follows the Python source
line by line:

* The client state (`ClientState`) carries the fields mutated by the source:
  `_heyGen_session`, `_websocket` (modelled as presence of a handle),
  `_connected`, `_buffered_audio_duration_ms` (a rational, the idealization of
  the Python float) and, additionally, a counter of how many UUIDs
  `uuid.uuid4()` has produced so far.
* `uuid.uuid4()` is modelled by a stream `gen : Nat → String` of generated
  identifiers together with the counter: each draw returns the next element.
* Network effects are explicit: each operation returns its successor state, a
  trace of emitted wire messages (`Emitted`, each with an outcome: delivered,
  dropped because the websocket handle is absent, or failed because the
  underlying send raised) or of remote API calls (`ApiCall`), and a flag
  `raised : Bool` telling whether the Python operation exits by raising an
  exception.  Whether an individual network primitive raises is an input (the
  environment): `SendEnv` for the up-to-three websocket sends of `send_audio`,
  booleans for the HTTP API calls of `setup`/`cleanup`/`stop`.
* The stream resampler is a parameter `resample : List Nat → Nat → List Nat`
  taking the chunk bytes and the source rate to the resampled bytes at the
  fixed 24000 Hz target rate; its internal filter state is irrelevant to the
  properties proved here, all of which quantify over arbitrary resampler
  functions.  Base64 encoding is injective and never inspected by the client,
  so messages carry the raw byte list instead.
-/

namespace HeyGen

/-- `HEY_GEN_SAMPLE_RATE = 24000` from the source. -/
def HEY_GEN_SAMPLE_RATE : Nat := 24000

/-- The `type` discriminator of outbound wire messages. -/
inductive MsgType
  | agentInterrupt
  | agentStartListening
  | agentStopListening
  | audioBufferAppend
  | audioBufferClear
  | audioBufferCommit
  deriving DecidableEq

/-- An outbound JSON message: the `type` discriminator, the optional `audio`
payload (raw bytes; the source base64-encodes them, which is injective and
never inspected), and the `event_id` string. -/
structure WireMessage where
  type : MsgType
  audio : Option (List Nat)
  event_id : String
  deriving DecidableEq

/-- What happened to one message handed to `_ws_send`: delivered over the
socket, dropped because `self._websocket` is `None` (the source only logs),
or failed because `websocket.send` raised (the source logs and re-raises). -/
inductive SendOutcome
  | sent
  | dropped
  | failed
  deriving DecidableEq

/-- One entry of the outbound trace. -/
structure Emitted where
  msg : WireMessage
  outcome : SendOutcome
  deriving DecidableEq

/-- The session object returned by the remote new-session API call. -/
structure HeyGenSession where
  session_id : String
  realtime_endpoint : String
  deriving DecidableEq

/-- The mutable fields of `HeyGenClient`.  `websocket` models whether
`self._websocket` holds a handle; `uuidCount` counts the `uuid.uuid4()`
draws made so far (the generator itself is the stream `gen`). -/
structure ClientState where
  heyGenSession : Option HeyGenSession
  websocket : Bool
  connected : Bool
  bufferedDurationMs : ℚ
  uuidCount : Nat
  deriving DecidableEq

/-- Result of one client operation that talks to the websocket. -/
structure CallResult where
  state : ClientState
  trace : List Emitted
  raised : Bool
  deriving DecidableEq

/-- `str(uuid.uuid4())`: draw the next identifier from the stream. -/
def uuid4 (gen : Nat → String) (st : ClientState) : String × ClientState :=
  (gen st.uuidCount, { st with uuidCount := st.uuidCount + 1 })

/-- `HeyGenClient._ws_send`.  If a handle is present the message is written
(`ok` tells whether the underlying send raises; on a raise the source logs and
re-raises).  If no handle is present the source logs an error and returns
normally: the message is dropped and nothing is raised. -/
def ws_send (st : ClientState) (ok : Bool) (m : WireMessage) : CallResult :=
  if st.websocket then
    if ok then { state := st, trace := [⟨m, SendOutcome.sent⟩], raised := false }
    else { state := st, trace := [⟨m, SendOutcome.failed⟩], raised := true }
  else { state := st, trace := [⟨m, SendOutcome.dropped⟩], raised := false }

/-- `HeyGenClient.interrupt`: sends `agent.interrupt` with a fresh UUID. -/
def interrupt (gen : Nat → String) (st : ClientState) (ok : Bool) : CallResult :=
  let p := uuid4 gen st
  ws_send p.2 ok { type := MsgType.agentInterrupt, audio := none, event_id := p.1 }

/-- `HeyGenClient.start_agent_listening`. -/
def start_agent_listening (gen : Nat → String) (st : ClientState) (ok : Bool) : CallResult :=
  let p := uuid4 gen st
  ws_send p.2 ok { type := MsgType.agentStartListening, audio := none, event_id := p.1 }

/-- `HeyGenClient.stop_agent_listening`. -/
def stop_agent_listening (gen : Nat → String) (st : ClientState) (ok : Bool) : CallResult :=
  let p := uuid4 gen st
  ws_send p.2 ok { type := MsgType.agentStopListening, audio := none, event_id := p.1 }

/-- `HeyGenClient._calculate_audio_duration_ms`:
`(len(audio) / 2) / sample_rate * 1000` (16-bit samples, 2 bytes each). -/
def calculate_audio_duration_ms (audio : List Nat) (sample_rate : Nat) : ℚ :=
  ((audio.length : ℚ) / 2) / (sample_rate : ℚ) * 1000

/-- `HeyGenClient._agent_audio_buffer_append`.  Note that the message's
`event_id` is a fresh UUID; the `event_id` argument is unused, as in the
source. -/
def agent_audio_buffer_append (gen : Nat → String) (st : ClientState) (ok : Bool)
    (audio : List Nat) (event_id : String) : CallResult :=
  let p := uuid4 gen st
  ws_send p.2 ok { type := MsgType.audioBufferAppend, audio := some audio, event_id := p.1 }

/-- `HeyGenClient._agent_audio_buffer_clear`. -/
def agent_audio_buffer_clear (gen : Nat → String) (st : ClientState) (ok : Bool) : CallResult :=
  let p := uuid4 gen st
  ws_send p.2 ok { type := MsgType.audioBufferClear, audio := none, event_id := p.1 }

/-- `HeyGenClient._agent_audio_buffer_commit`.  The payload is the base64 of
the single null byte `b"\x00"`; the `event_id` argument is unused, as in the
source. -/
def agent_audio_buffer_commit (gen : Nat → String) (st : ClientState) (ok : Bool)
    (event_id : String) : CallResult :=
  let p := uuid4 gen st
  ws_send p.2 ok { type := MsgType.audioBufferCommit, audio := some [0], event_id := p.1 }

/-- Environment for one `send_audio` call: whether each of the up to three
underlying websocket writes succeeds (irrelevant when the handle is absent,
in which case `_ws_send` drops without raising). -/
structure SendEnv where
  okAppend : Bool
  okClear : Bool
  okCommit : Bool
  deriving DecidableEq

/-- The all-successful environment. -/
def SendEnv.allOk : SendEnv := { okAppend := true, okClear := true, okCommit := true }

/-- `HeyGenClient.send_audio`.  Faithful to the source:

1. resample to 24000 Hz;
2. add the resampled chunk's duration to `_buffered_audio_duration_ms`;
3. append the chunk (a raise here propagates);
4. `if finish and buffered < 80`: clear and reset the counter to 0;
5. `if finish or buffered > 1000`: commit and reset the counter to 0.

Steps 4 and 5 are two independent `if` statements in the source (there is no
`elif`), so a short finished buffer is cleared and then also committed. -/
def send_audio (gen : Nat → String) (resample : List Nat → Nat → List Nat)
    (st : ClientState) (audio : List Nat) (sample_rate : Nat) (event_id : String)
    (finish : Bool) (env : SendEnv) : CallResult :=
  let audio2 := resample audio sample_rate
  let dur := calculate_audio_duration_ms audio2 HEY_GEN_SAMPLE_RATE
  let st1 : ClientState := { st with bufferedDurationMs := st.bufferedDurationMs + dur }
  let r1 := agent_audio_buffer_append gen st1 env.okAppend audio2 event_id
  if r1.raised then r1
  else
    let r2 : CallResult :=
      if finish = true ∧ r1.state.bufferedDurationMs < 80 then
        let rc := agent_audio_buffer_clear gen r1.state env.okClear
        if rc.raised then rc
        else { state := { rc.state with bufferedDurationMs := 0 },
               trace := rc.trace, raised := false }
      else { state := r1.state, trace := [], raised := false }
    if r2.raised then
      { state := r2.state, trace := r1.trace ++ r2.trace, raised := true }
    else
      if finish = true ∨ r2.state.bufferedDurationMs > 1000 then
        let r3 := agent_audio_buffer_commit gen r2.state env.okCommit event_id
        if r3.raised then
          { state := r3.state, trace := r1.trace ++ r2.trace ++ r3.trace, raised := true }
        else
          { state := { r3.state with bufferedDurationMs := 0 },
            trace := r1.trace ++ r2.trace ++ r3.trace, raised := false }
      else { state := r2.state, trace := r1.trace ++ r2.trace, raised := false }

/-- One request of a `send_audio` sequence, together with its environment. -/
structure CallInput where
  audio : List Nat
  sample_rate : Nat
  event_id : String
  finish : Bool
  env : SendEnv
  deriving DecidableEq

/-- Run a sequence of `send_audio` calls, collecting every call's result.
A raise in one call returns to the caller, who may keep calling, as the
upstream pipeline does. -/
def runCalls (gen : Nat → String) (resample : List Nat → Nat → List Nat) :
    ClientState → List CallInput → ClientState × List CallResult
  | st, [] => (st, [])
  | st, c :: cs =>
    let r := send_audio gen resample st c.audio c.sample_rate c.event_id c.finish c.env
    let p := runCalls gen resample r.state cs
    (p.1, r :: p.2)

/-- Remote HTTP API calls made through `HeyGenApi`. -/
inductive ApiCall
  | newSession
  | startSession (session_id : String)
  | closeSession (session_id : String)
  deriving DecidableEq

/-- Environment for `setup`: the result of `new_session` (`none` models a
raise), whether `start_session` succeeds, and whether the `close_session`
issued by a rollback `cleanup` succeeds. -/
structure ApiEnv where
  newSessionResult : Option HeyGenSession
  startOk : Bool
  closeOk : Bool

/-- `HeyGenClient._initialize`: `new_session` (storing the session on
success) then `start_session`.  The returned flag tells whether the Python
coroutine raises. -/
def initializeClient (st : ClientState) (env : ApiEnv) : ClientState × List ApiCall × Bool :=
  match env.newSessionResult with
  | none => (st, [ApiCall.newSession], true)
  | some s =>
    let st1 : ClientState := { st with heyGenSession := some s }
    (st1, [ApiCall.newSession, ApiCall.startSession s.session_id], !env.startOk)

/-- `HeyGenClient.cleanup`: if a session is held, close it remotely and reset
the session, connected flag and buffered duration.  A raise from
`close_session` is caught and logged, leaving those fields untouched;
`cleanup` itself never raises. -/
def cleanup (st : ClientState) (closeOk : Bool) : ClientState × List ApiCall × Bool :=
  match st.heyGenSession with
  | none => (st, [], false)
  | some s =>
    if closeOk then
      ({ st with heyGenSession := none, connected := false, bufferedDurationMs := 0 },
       [ApiCall.closeSession s.session_id], false)
    else (st, [ApiCall.closeSession s.session_id], false)

/-- `HeyGenClient.setup`: a no-op when a session already exists; otherwise
run `_initialize`, and on any exception log and run `cleanup`.  `setup`
itself never raises (the handler does not re-raise). -/
def setup (st : ClientState) (env : ApiEnv) : ClientState × List ApiCall × Bool :=
  if st.heyGenSession.isSome then (st, [], false)
  else
    let r1 := initializeClient st env
    if r1.2.2 then
      let r2 := cleanup r1.1 env.closeOk
      (r2.1, r1.2.1 ++ r2.2.1, false)
    else (r1.1, r1.2.1, false)

/-- `HeyGenClient._ws_disconnect`: close the handle when present (`closeOk`
tells whether `close()` raises; the raise is caught, skipping the
`connected = False` assignment), and in all cases clear the handle in the
`finally` block.  Never raises. -/
def ws_disconnect (st : ClientState) (closeOk : Bool) : ClientState × Bool :=
  if st.websocket then
    if closeOk then ({ st with connected := false, websocket := false }, false)
    else ({ st with websocket := false }, false)
  else ({ st with connected := false, websocket := false }, false)

/-- Environment for one `stop` call. -/
structure StopEnv where
  closeWsOk : Bool
  closeSessionOk : Bool

/-- `HeyGenClient.stop`: `_ws_disconnect` then `cleanup`. -/
def stop (st : ClientState) (env : StopEnv) : ClientState × List ApiCall × Bool :=
  let d := ws_disconnect st env.closeWsOk
  let c := cleanup d.1 env.closeSessionOk
  (c.1, c.2.1, d.2 || c.2.2)

/-! ## Derived notions used by the statements -/

/-- The `type` fields of a trace, in order. -/
def msgTypes (tr : List Emitted) : List MsgType := tr.map (fun e => e.msg.type)

/-- Number of messages of a given type in a trace. -/
def countType (tr : List Emitted) (t : MsgType) : Nat :=
  tr.countP (fun e => decide (e.msg.type = t))

/-- Duration contributed by one call of a sequence. -/
def durationOf (resample : List Nat → Nat → List Nat) (c : CallInput) : ℚ :=
  calculate_audio_duration_ms (resample c.audio c.sample_rate) HEY_GEN_SAMPLE_RATE

/-- Total duration contributed by a sequence of calls. -/
def sumDur (resample : List Nat → Nat → List Nat) (cs : List CallInput) : ℚ :=
  (cs.map (durationOf resample)).sum

/-! ## Concrete instances used by counterexamples and witnesses -/

/-- A concrete UUID stream. -/
def gen0 : Nat → String := fun n => "uuid-" ++ toString n

/-- The identity resampler (already at 24000 Hz). -/
def res0 : List Nat → Nat → List Nat := fun a _ => a

/-- A concrete connected state with an empty buffer. -/
def stConn : ClientState :=
  { heyGenSession := some { session_id := "sess-1", realtime_endpoint := "wss://hg" },
    websocket := true, connected := true, bufferedDurationMs := 0, uuidCount := 0 }

/-- A concrete state whose websocket handle is absent. -/
def stNoWs : ClientState :=
  { heyGenSession := some { session_id := "sess-1", realtime_endpoint := "wss://hg" },
    websocket := false, connected := false, bufferedDurationMs := 0, uuidCount := 0 }

/-- A fresh client state, as after `__init__`. -/
def stInit : ClientState :=
  { heyGenSession := none, websocket := false, connected := false,
    bufferedDurationMs := 0, uuidCount := 0 }

/-- A connected state holding 995 ms of buffered audio. -/
def stAlmost : ClientState := { stConn with bufferedDurationMs := 995 }

/-- A connected state holding 200 ms of buffered audio. -/
def st200 : ClientState := { stConn with bufferedDurationMs := 200 }

/-- Whether a remote API call is the new-session call. -/
def isNewSession : ApiCall → Bool
  | ApiCall.newSession => true
  | _ => false

/-- Whether a remote API call is the start-session call. -/
def isStartSession : ApiCall → Bool
  | ApiCall.startSession _ => true
  | _ => false

/-- Whether a remote API call is the close-session call. -/
def isCloseSession : ApiCall → Bool
  | ApiCall.closeSession _ => true
  | _ => false

/-- A concrete session as returned by the remote API. -/
def sess0 : HeyGenSession := { session_id := "sess-1", realtime_endpoint := "wss://hg" }

/-- API environment in which both create and start succeed. -/
def apiEnvGood : ApiEnv := { newSessionResult := some sess0, startOk := true, closeOk := true }

/-- API environment in which create succeeds but start raises. -/
def apiEnvStartFail : ApiEnv :=
  { newSessionResult := some sess0, startOk := false, closeOk := true }

/-- Stop environment in which everything succeeds. -/
def stopEnvOk : StopEnv := { closeWsOk := true, closeSessionOk := true }

/-- Stop environment in which the close-session call raises. -/
def stopEnvBad : StopEnv := { closeWsOk := true, closeSessionOk := false }

/-- A concrete prior call: a 10 ms chunk, `finish = false`, all sends ok. -/
def c1prior : CallInput :=
  { audio := List.replicate 480 0, sample_rate := 24000, event_id := "u1",
    finish := false, env := SendEnv.allOk }

/-- A concrete one-call prefix of a `send_audio` sequence. -/
def c1priors : List CallInput := [c1prior]

/-! ## Characterization lemmas for the sub-operations -/

lemma ws_send_present_ok (st : ClientState) (m : WireMessage) (h : st.websocket = true) :
    ws_send st true m = ⟨st, [⟨m, SendOutcome.sent⟩], false⟩ := by
  simp [ws_send, h]

lemma ws_send_present_fail (st : ClientState) (m : WireMessage) (h : st.websocket = true) :
    ws_send st false m = ⟨st, [⟨m, SendOutcome.failed⟩], true⟩ := by
  simp [ws_send, h]

lemma ws_send_absent (st : ClientState) (ok : Bool) (m : WireMessage)
    (h : st.websocket = false) :
    ws_send st ok m = ⟨st, [⟨m, SendOutcome.dropped⟩], false⟩ := by
  simp [ws_send, h]

lemma append_present_ok (gen : Nat → String) (st : ClientState) (a : List Nat) (eid : String)
    (h : st.websocket = true) :
    agent_audio_buffer_append gen st true a eid =
      ⟨{ st with uuidCount := st.uuidCount + 1 },
       [⟨⟨MsgType.audioBufferAppend, some a, gen st.uuidCount⟩, SendOutcome.sent⟩], false⟩ := by
  simp [agent_audio_buffer_append, uuid4, ws_send, h]

lemma append_present_fail (gen : Nat → String) (st : ClientState) (a : List Nat) (eid : String)
    (h : st.websocket = true) :
    agent_audio_buffer_append gen st false a eid =
      ⟨{ st with uuidCount := st.uuidCount + 1 },
       [⟨⟨MsgType.audioBufferAppend, some a, gen st.uuidCount⟩, SendOutcome.failed⟩], true⟩ := by
  simp [agent_audio_buffer_append, uuid4, ws_send, h]

lemma append_absent (gen : Nat → String) (st : ClientState) (ok : Bool) (a : List Nat)
    (eid : String) (h : st.websocket = false) :
    agent_audio_buffer_append gen st ok a eid =
      ⟨{ st with uuidCount := st.uuidCount + 1 },
       [⟨⟨MsgType.audioBufferAppend, some a, gen st.uuidCount⟩, SendOutcome.dropped⟩], false⟩ := by
  simp [agent_audio_buffer_append, uuid4, ws_send, h]

lemma clear_present_ok (gen : Nat → String) (st : ClientState) (h : st.websocket = true) :
    agent_audio_buffer_clear gen st true =
      ⟨{ st with uuidCount := st.uuidCount + 1 },
       [⟨⟨MsgType.audioBufferClear, none, gen st.uuidCount⟩, SendOutcome.sent⟩], false⟩ := by
  simp [agent_audio_buffer_clear, uuid4, ws_send, h]

lemma clear_present_fail (gen : Nat → String) (st : ClientState) (h : st.websocket = true) :
    agent_audio_buffer_clear gen st false =
      ⟨{ st with uuidCount := st.uuidCount + 1 },
       [⟨⟨MsgType.audioBufferClear, none, gen st.uuidCount⟩, SendOutcome.failed⟩], true⟩ := by
  simp [agent_audio_buffer_clear, uuid4, ws_send, h]

lemma clear_absent (gen : Nat → String) (st : ClientState) (ok : Bool)
    (h : st.websocket = false) :
    agent_audio_buffer_clear gen st ok =
      ⟨{ st with uuidCount := st.uuidCount + 1 },
       [⟨⟨MsgType.audioBufferClear, none, gen st.uuidCount⟩, SendOutcome.dropped⟩], false⟩ := by
  simp [agent_audio_buffer_clear, uuid4, ws_send, h]

lemma commit_present_ok (gen : Nat → String) (st : ClientState) (eid : String)
    (h : st.websocket = true) :
    agent_audio_buffer_commit gen st true eid =
      ⟨{ st with uuidCount := st.uuidCount + 1 },
       [⟨⟨MsgType.audioBufferCommit, some [0], gen st.uuidCount⟩, SendOutcome.sent⟩], false⟩ := by
  simp [agent_audio_buffer_commit, uuid4, ws_send, h]

lemma commit_present_fail (gen : Nat → String) (st : ClientState) (eid : String)
    (h : st.websocket = true) :
    agent_audio_buffer_commit gen st false eid =
      ⟨{ st with uuidCount := st.uuidCount + 1 },
       [⟨⟨MsgType.audioBufferCommit, some [0], gen st.uuidCount⟩, SendOutcome.failed⟩], true⟩ := by
  simp [agent_audio_buffer_commit, uuid4, ws_send, h]

lemma commit_absent (gen : Nat → String) (st : ClientState) (ok : Bool) (eid : String)
    (h : st.websocket = false) :
    agent_audio_buffer_commit gen st ok eid =
      ⟨{ st with uuidCount := st.uuidCount + 1 },
       [⟨⟨MsgType.audioBufferCommit, some [0], gen st.uuidCount⟩, SendOutcome.dropped⟩], false⟩ := by
  simp [agent_audio_buffer_commit, uuid4, ws_send, h]

/-- The duration of a chunk is never negative. -/
lemma calculate_audio_duration_ms_nonneg (audio : List Nat) (sample_rate : Nat) :
    0 ≤ calculate_audio_duration_ms audio sample_rate := by
  unfold calculate_audio_duration_ms
  positivity

/-! ## Region characterizations of `send_audio` -/

/-- `finish = false` and the accumulated duration stays at or below 1000 ms:
only an append is sent, the counter keeps the accumulated value. -/
lemma send_audio_append_only (gen : Nat → String) (res : List Nat → Nat → List Nat)
    (st : ClientState) (a : List Nat) (sr : Nat) (eid : String) (env : SendEnv)
    (hws : st.websocket = true) (hok : env.okAppend = true)
    (hle : st.bufferedDurationMs + calculate_audio_duration_ms (res a sr) HEY_GEN_SAMPLE_RATE
            ≤ 1000) :
    send_audio gen res st a sr eid false env =
      ⟨{ st with
           bufferedDurationMs :=
             st.bufferedDurationMs
               + calculate_audio_duration_ms (res a sr) HEY_GEN_SAMPLE_RATE,
           uuidCount := st.uuidCount + 1 },
       [⟨⟨MsgType.audioBufferAppend, some (res a sr), gen st.uuidCount⟩, SendOutcome.sent⟩],
       false⟩ := by
  have h2 : ¬ (st.bufferedDurationMs
      + calculate_audio_duration_ms (res a sr) HEY_GEN_SAMPLE_RATE > 1000) :=
    not_lt.mpr hle
  simp only [send_audio, hok]
  rw [append_present_ok gen _ _ _ (by simpa using hws)]
  simp [h2]

/-- `finish = false` and the chunk pushes the accumulated duration strictly
above 1000 ms: append then commit, and the counter resets to 0. -/
lemma send_audio_commit_high (gen : Nat → String) (res : List Nat → Nat → List Nat)
    (st : ClientState) (a : List Nat) (sr : Nat) (eid : String) (env : SendEnv)
    (hws : st.websocket = true) (hokA : env.okAppend = true) (hokC : env.okCommit = true)
    (hgt : st.bufferedDurationMs + calculate_audio_duration_ms (res a sr) HEY_GEN_SAMPLE_RATE
            > 1000) :
    send_audio gen res st a sr eid false env =
      ⟨{ st with bufferedDurationMs := 0, uuidCount := st.uuidCount + 2 },
       [⟨⟨MsgType.audioBufferAppend, some (res a sr), gen st.uuidCount⟩, SendOutcome.sent⟩,
        ⟨⟨MsgType.audioBufferCommit, some [0], gen (st.uuidCount + 1)⟩, SendOutcome.sent⟩],
       false⟩ := by
  simp only [send_audio, hokA, hokC]
  rw [append_present_ok gen _ _ _ (by simpa using hws)]
  simp only []
  rw [commit_present_ok gen _ _ (by simpa using hws)]
  simp [hgt]

/-- `finish = true` with at least 80 ms accumulated: append then commit (no
clear), and the counter resets to 0. -/
lemma send_audio_finish_commit (gen : Nat → String) (res : List Nat → Nat → List Nat)
    (st : ClientState) (a : List Nat) (sr : Nat) (eid : String) (env : SendEnv)
    (hws : st.websocket = true) (hokA : env.okAppend = true) (hokC : env.okCommit = true)
    (hge : 80 ≤ st.bufferedDurationMs
            + calculate_audio_duration_ms (res a sr) HEY_GEN_SAMPLE_RATE) :
    send_audio gen res st a sr eid true env =
      ⟨{ st with bufferedDurationMs := 0, uuidCount := st.uuidCount + 2 },
       [⟨⟨MsgType.audioBufferAppend, some (res a sr), gen st.uuidCount⟩, SendOutcome.sent⟩,
        ⟨⟨MsgType.audioBufferCommit, some [0], gen (st.uuidCount + 1)⟩, SendOutcome.sent⟩],
       false⟩ := by
  have h2 : ¬ (st.bufferedDurationMs
      + calculate_audio_duration_ms (res a sr) HEY_GEN_SAMPLE_RATE < 80) :=
    not_lt.mpr hge
  simp only [send_audio, hokA, hokC]
  rw [append_present_ok gen _ _ _ (by simpa using hws)]
  simp only [h2]
  rw [commit_present_ok gen _ _ (by simpa using hws)]
  simp [h2]

/-- `finish = true` with strictly less than 80 ms accumulated: append, clear,
and then — because the two flush checks are independent `if`s — also a
commit; the counter resets to 0. -/
lemma send_audio_finish_low (gen : Nat → String) (res : List Nat → Nat → List Nat)
    (st : ClientState) (a : List Nat) (sr : Nat) (eid : String) (env : SendEnv)
    (hws : st.websocket = true) (hokA : env.okAppend = true) (hokCl : env.okClear = true)
    (hokC : env.okCommit = true)
    (hlt : st.bufferedDurationMs + calculate_audio_duration_ms (res a sr) HEY_GEN_SAMPLE_RATE
            < 80) :
    send_audio gen res st a sr eid true env =
      ⟨{ st with bufferedDurationMs := 0, uuidCount := st.uuidCount + 3 },
       [⟨⟨MsgType.audioBufferAppend, some (res a sr), gen st.uuidCount⟩, SendOutcome.sent⟩,
        ⟨⟨MsgType.audioBufferClear, none, gen (st.uuidCount + 1)⟩, SendOutcome.sent⟩,
        ⟨⟨MsgType.audioBufferCommit, some [0], gen (st.uuidCount + 2)⟩, SendOutcome.sent⟩],
       false⟩ := by
  simp only [send_audio, hokA, hokCl, hokC]
  rw [append_present_ok gen _ _ _ (by simpa using hws)]
  simp only [hlt]
  rw [clear_present_ok gen _ (by simpa using hws)]
  simp only []
  rw [commit_present_ok gen _ _ (by simpa using hws)]
  simp [hlt]

/-- When the append's underlying send raises, `send_audio` re-raises at once:
the duration is already accumulated, and no flush decision runs. -/
lemma send_audio_append_fail (gen : Nat → String) (res : List Nat → Nat → List Nat)
    (st : ClientState) (a : List Nat) (sr : Nat) (eid : String) (finish : Bool) (env : SendEnv)
    (hws : st.websocket = true) (hok : env.okAppend = false) :
    send_audio gen res st a sr eid finish env =
      ⟨{ st with
           bufferedDurationMs :=
             st.bufferedDurationMs
               + calculate_audio_duration_ms (res a sr) HEY_GEN_SAMPLE_RATE,
           uuidCount := st.uuidCount + 1 },
       [⟨⟨MsgType.audioBufferAppend, some (res a sr), gen st.uuidCount⟩, SendOutcome.failed⟩],
       true⟩ := by
  simp only [send_audio, hok]
  rw [append_present_fail gen _ _ _ (by simpa using hws)]
  simp

/-- With no websocket handle, `send_audio` never raises, every message is
dropped, and the buffered-duration policy still applies. -/
lemma send_audio_absent (gen : Nat → String) (res : List Nat → Nat → List Nat)
    (st : ClientState) (a : List Nat) (sr : Nat) (eid : String) (finish : Bool) (env : SendEnv)
    (hws : st.websocket = false) :
    (send_audio gen res st a sr eid finish env).raised = false ∧
    (∀ e ∈ (send_audio gen res st a sr eid finish env).trace,
      e.outcome = SendOutcome.dropped) ∧
    (send_audio gen res st a sr eid finish env).state.bufferedDurationMs =
      (if finish = true ∨
          st.bufferedDurationMs + calculate_audio_duration_ms (res a sr) HEY_GEN_SAMPLE_RATE
            > 1000
       then 0
       else st.bufferedDurationMs
              + calculate_audio_duration_ms (res a sr) HEY_GEN_SAMPLE_RATE) ∧
    (send_audio gen res st a sr eid finish env).state.websocket = false := by
  by_cases hf : finish = true
  · by_cases hlt : st.bufferedDurationMs
        + calculate_audio_duration_ms (res a sr) HEY_GEN_SAMPLE_RATE < 80
    · simp [send_audio, agent_audio_buffer_append, agent_audio_buffer_clear,
        agent_audio_buffer_commit, uuid4, ws_send, hws, hf, hlt]
    · simp [send_audio, agent_audio_buffer_append, agent_audio_buffer_clear,
        agent_audio_buffer_commit, uuid4, ws_send, hws, hf, hlt]
  · have hf2 : finish = false := by simpa using hf
    by_cases hgt : st.bufferedDurationMs
        + calculate_audio_duration_ms (res a sr) HEY_GEN_SAMPLE_RATE > 1000
    · simp [send_audio, agent_audio_buffer_append, agent_audio_buffer_clear,
        agent_audio_buffer_commit, uuid4, ws_send, hws, hf2, hgt]
    · simp [send_audio, agent_audio_buffer_append, agent_audio_buffer_clear,
        agent_audio_buffer_commit, uuid4, ws_send, hws, hf2, hgt]

/-- `finish = false`, threshold crossed, but the commit's send raises: the
raise propagates and the counter is NOT reset (the reset line is skipped). -/
lemma send_audio_commit_fail_high (gen : Nat → String) (res : List Nat → Nat → List Nat)
    (st : ClientState) (a : List Nat) (sr : Nat) (eid : String) (env : SendEnv)
    (hws : st.websocket = true) (hokA : env.okAppend = true) (hokC : env.okCommit = false)
    (hgt : st.bufferedDurationMs + calculate_audio_duration_ms (res a sr) HEY_GEN_SAMPLE_RATE
            > 1000) :
    send_audio gen res st a sr eid false env =
      ⟨{ st with
           bufferedDurationMs :=
             st.bufferedDurationMs
               + calculate_audio_duration_ms (res a sr) HEY_GEN_SAMPLE_RATE,
           uuidCount := st.uuidCount + 2 },
       [⟨⟨MsgType.audioBufferAppend, some (res a sr), gen st.uuidCount⟩, SendOutcome.sent⟩,
        ⟨⟨MsgType.audioBufferCommit, some [0], gen (st.uuidCount + 1)⟩, SendOutcome.failed⟩],
       true⟩ := by
  simp only [send_audio, hokA, hokC]
  rw [append_present_ok gen _ _ _ (by simpa using hws)]
  simp only []
  rw [commit_present_fail gen _ _ (by simpa using hws)]
  simp [hgt]

/-- `finish = true`, at least 80 ms accumulated, but the commit's send
raises: the raise propagates and the counter is NOT reset. -/
lemma send_audio_finish_commit_fail (gen : Nat → String) (res : List Nat → Nat → List Nat)
    (st : ClientState) (a : List Nat) (sr : Nat) (eid : String) (env : SendEnv)
    (hws : st.websocket = true) (hokA : env.okAppend = true) (hokC : env.okCommit = false)
    (hge : 80 ≤ st.bufferedDurationMs
            + calculate_audio_duration_ms (res a sr) HEY_GEN_SAMPLE_RATE) :
    send_audio gen res st a sr eid true env =
      ⟨{ st with
           bufferedDurationMs :=
             st.bufferedDurationMs
               + calculate_audio_duration_ms (res a sr) HEY_GEN_SAMPLE_RATE,
           uuidCount := st.uuidCount + 2 },
       [⟨⟨MsgType.audioBufferAppend, some (res a sr), gen st.uuidCount⟩, SendOutcome.sent⟩,
        ⟨⟨MsgType.audioBufferCommit, some [0], gen (st.uuidCount + 1)⟩, SendOutcome.failed⟩],
       true⟩ := by
  have h2 : ¬ (st.bufferedDurationMs
      + calculate_audio_duration_ms (res a sr) HEY_GEN_SAMPLE_RATE < 80) :=
    not_lt.mpr hge
  simp only [send_audio, hokA, hokC]
  rw [append_present_ok gen _ _ _ (by simpa using hws)]
  simp only [h2]
  rw [commit_present_fail gen _ _ (by simpa using hws)]
  simp [h2]

/-- `finish = true`, under 80 ms, but the clear's send raises: the raise
propagates before any reset, so the counter keeps the accumulated value. -/
lemma send_audio_clear_fail (gen : Nat → String) (res : List Nat → Nat → List Nat)
    (st : ClientState) (a : List Nat) (sr : Nat) (eid : String) (env : SendEnv)
    (hws : st.websocket = true) (hokA : env.okAppend = true) (hokCl : env.okClear = false)
    (hlt : st.bufferedDurationMs + calculate_audio_duration_ms (res a sr) HEY_GEN_SAMPLE_RATE
            < 80) :
    send_audio gen res st a sr eid true env =
      ⟨{ st with
           bufferedDurationMs :=
             st.bufferedDurationMs
               + calculate_audio_duration_ms (res a sr) HEY_GEN_SAMPLE_RATE,
           uuidCount := st.uuidCount + 2 },
       [⟨⟨MsgType.audioBufferAppend, some (res a sr), gen st.uuidCount⟩, SendOutcome.sent⟩,
        ⟨⟨MsgType.audioBufferClear, none, gen (st.uuidCount + 1)⟩, SendOutcome.failed⟩],
       true⟩ := by
  simp only [send_audio, hokA, hokCl]
  rw [append_present_ok gen _ _ _ (by simpa using hws)]
  simp only [hlt]
  rw [clear_present_fail gen _ (by simpa using hws)]
  simp [hlt]

/-- `finish = true`, under 80 ms, clear succeeds (resetting the counter) but
the commit's send raises: the raise propagates with the counter already 0. -/
lemma send_audio_finish_low_commit_fail (gen : Nat → String)
    (res : List Nat → Nat → List Nat) (st : ClientState) (a : List Nat) (sr : Nat)
    (eid : String) (env : SendEnv)
    (hws : st.websocket = true) (hokA : env.okAppend = true) (hokCl : env.okClear = true)
    (hokC : env.okCommit = false)
    (hlt : st.bufferedDurationMs + calculate_audio_duration_ms (res a sr) HEY_GEN_SAMPLE_RATE
            < 80) :
    send_audio gen res st a sr eid true env =
      ⟨{ st with bufferedDurationMs := 0, uuidCount := st.uuidCount + 3 },
       [⟨⟨MsgType.audioBufferAppend, some (res a sr), gen st.uuidCount⟩, SendOutcome.sent⟩,
        ⟨⟨MsgType.audioBufferClear, none, gen (st.uuidCount + 1)⟩, SendOutcome.sent⟩,
        ⟨⟨MsgType.audioBufferCommit, some [0], gen (st.uuidCount + 2)⟩, SendOutcome.failed⟩],
       true⟩ := by
  simp only [send_audio, hokA, hokCl, hokC]
  rw [append_present_ok gen _ _ _ (by simpa using hws)]
  simp only [hlt]
  rw [clear_present_ok gen _ (by simpa using hws)]
  simp only []
  rw [commit_present_fail gen _ _ (by simpa using hws)]
  simp [hlt]

/-- No handle, `finish = false`, at or below 1000 ms: a dropped append. -/
lemma send_audio_absent_append_only (gen : Nat → String) (res : List Nat → Nat → List Nat)
    (st : ClientState) (a : List Nat) (sr : Nat) (eid : String) (env : SendEnv)
    (hws : st.websocket = false)
    (hle : st.bufferedDurationMs + calculate_audio_duration_ms (res a sr) HEY_GEN_SAMPLE_RATE
            ≤ 1000) :
    send_audio gen res st a sr eid false env =
      ⟨{ st with
           bufferedDurationMs :=
             st.bufferedDurationMs
               + calculate_audio_duration_ms (res a sr) HEY_GEN_SAMPLE_RATE,
           uuidCount := st.uuidCount + 1 },
       [⟨⟨MsgType.audioBufferAppend, some (res a sr), gen st.uuidCount⟩, SendOutcome.dropped⟩],
       false⟩ := by
  have h2 : ¬ (st.bufferedDurationMs
      + calculate_audio_duration_ms (res a sr) HEY_GEN_SAMPLE_RATE > 1000) :=
    not_lt.mpr hle
  simp only [send_audio]
  rw [append_absent gen _ _ _ _ (by simpa using hws)]
  simp [h2]

/-- No handle, `finish = false`, above 1000 ms: dropped append and commit. -/
lemma send_audio_absent_commit_high (gen : Nat → String) (res : List Nat → Nat → List Nat)
    (st : ClientState) (a : List Nat) (sr : Nat) (eid : String) (env : SendEnv)
    (hws : st.websocket = false)
    (hgt : st.bufferedDurationMs + calculate_audio_duration_ms (res a sr) HEY_GEN_SAMPLE_RATE
            > 1000) :
    send_audio gen res st a sr eid false env =
      ⟨{ st with bufferedDurationMs := 0, uuidCount := st.uuidCount + 2 },
       [⟨⟨MsgType.audioBufferAppend, some (res a sr), gen st.uuidCount⟩, SendOutcome.dropped⟩,
        ⟨⟨MsgType.audioBufferCommit, some [0], gen (st.uuidCount + 1)⟩, SendOutcome.dropped⟩],
       false⟩ := by
  simp only [send_audio]
  rw [append_absent gen _ _ _ _ (by simpa using hws)]
  simp only []
  rw [commit_absent gen _ _ _ (by simpa using hws)]
  simp [hgt]

/-- No handle, `finish = true`, at least 80 ms: dropped append and commit. -/
lemma send_audio_absent_finish_commit (gen : Nat → String) (res : List Nat → Nat → List Nat)
    (st : ClientState) (a : List Nat) (sr : Nat) (eid : String) (env : SendEnv)
    (hws : st.websocket = false)
    (hge : 80 ≤ st.bufferedDurationMs
            + calculate_audio_duration_ms (res a sr) HEY_GEN_SAMPLE_RATE) :
    send_audio gen res st a sr eid true env =
      ⟨{ st with bufferedDurationMs := 0, uuidCount := st.uuidCount + 2 },
       [⟨⟨MsgType.audioBufferAppend, some (res a sr), gen st.uuidCount⟩, SendOutcome.dropped⟩,
        ⟨⟨MsgType.audioBufferCommit, some [0], gen (st.uuidCount + 1)⟩, SendOutcome.dropped⟩],
       false⟩ := by
  have h2 : ¬ (st.bufferedDurationMs
      + calculate_audio_duration_ms (res a sr) HEY_GEN_SAMPLE_RATE < 80) :=
    not_lt.mpr hge
  simp only [send_audio]
  rw [append_absent gen _ _ _ _ (by simpa using hws)]
  simp only [h2]
  rw [commit_absent gen _ _ _ (by simpa using hws)]
  simp [h2]

/-- No handle, `finish = true`, under 80 ms: dropped append, clear and
commit. -/
lemma send_audio_absent_finish_low (gen : Nat → String) (res : List Nat → Nat → List Nat)
    (st : ClientState) (a : List Nat) (sr : Nat) (eid : String) (env : SendEnv)
    (hws : st.websocket = false)
    (hlt : st.bufferedDurationMs + calculate_audio_duration_ms (res a sr) HEY_GEN_SAMPLE_RATE
            < 80) :
    send_audio gen res st a sr eid true env =
      ⟨{ st with bufferedDurationMs := 0, uuidCount := st.uuidCount + 3 },
       [⟨⟨MsgType.audioBufferAppend, some (res a sr), gen st.uuidCount⟩, SendOutcome.dropped⟩,
        ⟨⟨MsgType.audioBufferClear, none, gen (st.uuidCount + 1)⟩, SendOutcome.dropped⟩,
        ⟨⟨MsgType.audioBufferCommit, some [0], gen (st.uuidCount + 2)⟩, SendOutcome.dropped⟩],
       false⟩ := by
  simp only [send_audio]
  rw [append_absent gen _ _ _ _ (by simpa using hws)]
  simp only [hlt]
  rw [clear_absent gen _ _ (by simpa using hws)]
  simp only []
  rw [commit_absent gen _ _ _ (by simpa using hws)]
  simp [hlt]

/-- Durations summed over a call sequence are nonnegative. -/
lemma sumDur_nonneg (res : List Nat → Nat → List Nat) (cs : List CallInput) :
    0 ≤ sumDur res cs := by
  induction cs with
  | nil => simp [sumDur]
  | cons c cs ih =>
    have h1 := calculate_audio_duration_ms_nonneg (res c.audio c.sample_rate)
      HEY_GEN_SAMPLE_RATE
    have h2 : sumDur res (c :: cs) = durationOf res c + sumDur res cs := by
      simp [sumDur]
    rw [h2]
    unfold durationOf
    linarith

/-- A sequence of `finish = false`, successful calls that keeps the
accumulated duration at or below 1000 ms only appends: no flush fires, and
the counter ends at the accumulated total. -/
lemma runCalls_no_flush (gen : Nat → String) (res : List Nat → Nat → List Nat) :
    ∀ (cs : List CallInput) (st : ClientState),
      st.websocket = true →
      0 ≤ st.bufferedDurationMs →
      (∀ c ∈ cs, c.finish = false ∧ c.env.okAppend = true) →
      st.bufferedDurationMs + sumDur res cs ≤ 1000 →
      (runCalls gen res st cs).1.bufferedDurationMs
          = st.bufferedDurationMs + sumDur res cs ∧
      (runCalls gen res st cs).1.websocket = true ∧
      (∀ r ∈ (runCalls gen res st cs).2,
        msgTypes r.trace = [MsgType.audioBufferAppend] ∧ r.raised = false ∧
        (∀ e ∈ r.trace, e.outcome = SendOutcome.sent))
  | [], st => by
    intro hws _ _ _
    simp [runCalls, sumDur, hws]
  | c :: cs, st => by
    intro hws hb hcs hsum
    have hdur := calculate_audio_duration_ms_nonneg (res c.audio c.sample_rate)
      HEY_GEN_SAMPLE_RATE
    have hrest := sumDur_nonneg res cs
    have hsum2 : sumDur res (c :: cs)
        = calculate_audio_duration_ms (res c.audio c.sample_rate) HEY_GEN_SAMPLE_RATE
          + sumDur res cs := by
      simp [sumDur, durationOf]
    rw [hsum2] at hsum
    have hc := hcs c (List.mem_cons_self c cs)
    have hstep : st.bufferedDurationMs
        + calculate_audio_duration_ms (res c.audio c.sample_rate) HEY_GEN_SAMPLE_RATE
          ≤ 1000 := by linarith
    have heq := send_audio_append_only gen res st c.audio c.sample_rate c.event_id c.env
      hws hc.2 hstep
    have ih := runCalls_no_flush gen res cs
      { st with
          bufferedDurationMs := st.bufferedDurationMs
            + calculate_audio_duration_ms (res c.audio c.sample_rate) HEY_GEN_SAMPLE_RATE,
          uuidCount := st.uuidCount + 1 }
      hws
      (show (0:ℚ) ≤ st.bufferedDurationMs
          + calculate_audio_duration_ms (res c.audio c.sample_rate) HEY_GEN_SAMPLE_RATE
        by linarith)
      (fun x hx => hcs x (List.mem_cons_of_mem c hx))
      (show st.bufferedDurationMs
          + calculate_audio_duration_ms (res c.audio c.sample_rate) HEY_GEN_SAMPLE_RATE
          + sumDur res cs ≤ 1000
        by linarith)
    simp only [runCalls]
    rw [hc.1, heq]
    refine ⟨?_, ih.2.1, ?_⟩
    · rw [hsum2]
      have h3 := ih.1
      simp only [] at h3
      rw [h3]
      ring
    · intro r hr
      rcases List.mem_cons.mp hr with hr | hr
      · subst hr
        refine ⟨by simp [msgTypes], rfl, ?_⟩
        intro e he
        rcases List.mem_singleton.mp he with rfl
        rfl
      · exact ih.2.2 r hr

/-- Exhaustive case analysis of `send_audio`: every run falls in one of 13
regions (websocket present/absent, which send fails, and the flush region),
each with a literal result.  Consumers instantiate the motive `P`. -/
lemma send_audio_cases (gen : Nat → String) (res : List Nat → Nat → List Nat)
    (st : ClientState) (a : List Nat) (sr : Nat) (eid : String) (finish : Bool)
    (env : SendEnv) (P : CallResult → Prop)
    (h1 :
      st.websocket = true →
      env.okAppend = true →
      finish = false →
      st.bufferedDurationMs + calculate_audio_duration_ms (res a sr) HEY_GEN_SAMPLE_RATE ≤ 1000 →
      P ⟨{ st with
             bufferedDurationMs :=
               st.bufferedDurationMs
                 + calculate_audio_duration_ms (res a sr) HEY_GEN_SAMPLE_RATE,
             uuidCount := st.uuidCount + 1 },
        [⟨⟨MsgType.audioBufferAppend, some (res a sr), gen st.uuidCount⟩, SendOutcome.sent⟩],
        false⟩)
    (h2 :
      st.websocket = true →
      env.okAppend = true →
      env.okCommit = true →
      finish = false →
      st.bufferedDurationMs + calculate_audio_duration_ms (res a sr) HEY_GEN_SAMPLE_RATE > 1000 →
      P ⟨{ st with
             bufferedDurationMs := 0,
             uuidCount := st.uuidCount + 2 },
        [⟨⟨MsgType.audioBufferAppend, some (res a sr), gen st.uuidCount⟩, SendOutcome.sent⟩,
        ⟨⟨MsgType.audioBufferCommit, some [0], gen (st.uuidCount + 1)⟩, SendOutcome.sent⟩],
        false⟩)
    (h3 :
      st.websocket = true →
      env.okAppend = true →
      env.okCommit = true →
      finish = true →
      80 ≤ st.bufferedDurationMs + calculate_audio_duration_ms (res a sr) HEY_GEN_SAMPLE_RATE →
      P ⟨{ st with
             bufferedDurationMs := 0,
             uuidCount := st.uuidCount + 2 },
        [⟨⟨MsgType.audioBufferAppend, some (res a sr), gen st.uuidCount⟩, SendOutcome.sent⟩,
        ⟨⟨MsgType.audioBufferCommit, some [0], gen (st.uuidCount + 1)⟩, SendOutcome.sent⟩],
        false⟩)
    (h4 :
      st.websocket = true →
      env.okAppend = true →
      env.okClear = true →
      env.okCommit = true →
      finish = true →
      st.bufferedDurationMs + calculate_audio_duration_ms (res a sr) HEY_GEN_SAMPLE_RATE < 80 →
      P ⟨{ st with
             bufferedDurationMs := 0,
             uuidCount := st.uuidCount + 3 },
        [⟨⟨MsgType.audioBufferAppend, some (res a sr), gen st.uuidCount⟩, SendOutcome.sent⟩,
        ⟨⟨MsgType.audioBufferClear, none, gen (st.uuidCount + 1)⟩, SendOutcome.sent⟩,
        ⟨⟨MsgType.audioBufferCommit, some [0], gen (st.uuidCount + 2)⟩, SendOutcome.sent⟩],
        false⟩)
    (h5 :
      st.websocket = true →
      env.okAppend = false →
      P ⟨{ st with
             bufferedDurationMs :=
               st.bufferedDurationMs
                 + calculate_audio_duration_ms (res a sr) HEY_GEN_SAMPLE_RATE,
             uuidCount := st.uuidCount + 1 },
        [⟨⟨MsgType.audioBufferAppend, some (res a sr), gen st.uuidCount⟩, SendOutcome.failed⟩],
        true⟩)
    (h6 :
      st.websocket = true →
      env.okAppend = true →
      env.okCommit = false →
      finish = false →
      st.bufferedDurationMs + calculate_audio_duration_ms (res a sr) HEY_GEN_SAMPLE_RATE > 1000 →
      P ⟨{ st with
             bufferedDurationMs :=
               st.bufferedDurationMs
                 + calculate_audio_duration_ms (res a sr) HEY_GEN_SAMPLE_RATE,
             uuidCount := st.uuidCount + 2 },
        [⟨⟨MsgType.audioBufferAppend, some (res a sr), gen st.uuidCount⟩, SendOutcome.sent⟩,
        ⟨⟨MsgType.audioBufferCommit, some [0], gen (st.uuidCount + 1)⟩, SendOutcome.failed⟩],
        true⟩)
    (h7 :
      st.websocket = true →
      env.okAppend = true →
      env.okCommit = false →
      finish = true →
      80 ≤ st.bufferedDurationMs + calculate_audio_duration_ms (res a sr) HEY_GEN_SAMPLE_RATE →
      P ⟨{ st with
             bufferedDurationMs :=
               st.bufferedDurationMs
                 + calculate_audio_duration_ms (res a sr) HEY_GEN_SAMPLE_RATE,
             uuidCount := st.uuidCount + 2 },
        [⟨⟨MsgType.audioBufferAppend, some (res a sr), gen st.uuidCount⟩, SendOutcome.sent⟩,
        ⟨⟨MsgType.audioBufferCommit, some [0], gen (st.uuidCount + 1)⟩, SendOutcome.failed⟩],
        true⟩)
    (h8 :
      st.websocket = true →
      env.okAppend = true →
      env.okClear = false →
      finish = true →
      st.bufferedDurationMs + calculate_audio_duration_ms (res a sr) HEY_GEN_SAMPLE_RATE < 80 →
      P ⟨{ st with
             bufferedDurationMs :=
               st.bufferedDurationMs
                 + calculate_audio_duration_ms (res a sr) HEY_GEN_SAMPLE_RATE,
             uuidCount := st.uuidCount + 2 },
        [⟨⟨MsgType.audioBufferAppend, some (res a sr), gen st.uuidCount⟩, SendOutcome.sent⟩,
        ⟨⟨MsgType.audioBufferClear, none, gen (st.uuidCount + 1)⟩, SendOutcome.failed⟩],
        true⟩)
    (h9 :
      st.websocket = true →
      env.okAppend = true →
      env.okClear = true →
      env.okCommit = false →
      finish = true →
      st.bufferedDurationMs + calculate_audio_duration_ms (res a sr) HEY_GEN_SAMPLE_RATE < 80 →
      P ⟨{ st with
             bufferedDurationMs := 0,
             uuidCount := st.uuidCount + 3 },
        [⟨⟨MsgType.audioBufferAppend, some (res a sr), gen st.uuidCount⟩, SendOutcome.sent⟩,
        ⟨⟨MsgType.audioBufferClear, none, gen (st.uuidCount + 1)⟩, SendOutcome.sent⟩,
        ⟨⟨MsgType.audioBufferCommit, some [0], gen (st.uuidCount + 2)⟩, SendOutcome.failed⟩],
        true⟩)
    (h10 :
      st.websocket = false →
      finish = false →
      st.bufferedDurationMs + calculate_audio_duration_ms (res a sr) HEY_GEN_SAMPLE_RATE ≤ 1000 →
      P ⟨{ st with
             bufferedDurationMs :=
               st.bufferedDurationMs
                 + calculate_audio_duration_ms (res a sr) HEY_GEN_SAMPLE_RATE,
             uuidCount := st.uuidCount + 1 },
        [⟨⟨MsgType.audioBufferAppend, some (res a sr), gen st.uuidCount⟩, SendOutcome.dropped⟩],
        false⟩)
    (h11 :
      st.websocket = false →
      finish = true →
      80 ≤ st.bufferedDurationMs + calculate_audio_duration_ms (res a sr) HEY_GEN_SAMPLE_RATE →
      P ⟨{ st with
             bufferedDurationMs := 0,
             uuidCount := st.uuidCount + 2 },
        [⟨⟨MsgType.audioBufferAppend, some (res a sr), gen st.uuidCount⟩, SendOutcome.dropped⟩,
        ⟨⟨MsgType.audioBufferCommit, some [0], gen (st.uuidCount + 1)⟩, SendOutcome.dropped⟩],
        false⟩)
    (h12 :
      st.websocket = false →
      finish = true →
      st.bufferedDurationMs + calculate_audio_duration_ms (res a sr) HEY_GEN_SAMPLE_RATE < 80 →
      P ⟨{ st with
             bufferedDurationMs := 0,
             uuidCount := st.uuidCount + 3 },
        [⟨⟨MsgType.audioBufferAppend, some (res a sr), gen st.uuidCount⟩, SendOutcome.dropped⟩,
        ⟨⟨MsgType.audioBufferClear, none, gen (st.uuidCount + 1)⟩, SendOutcome.dropped⟩,
        ⟨⟨MsgType.audioBufferCommit, some [0], gen (st.uuidCount + 2)⟩, SendOutcome.dropped⟩],
        false⟩)
    (h13 :
      st.websocket = false →
      finish = false →
      st.bufferedDurationMs + calculate_audio_duration_ms (res a sr) HEY_GEN_SAMPLE_RATE > 1000 →
      P ⟨{ st with
             bufferedDurationMs := 0,
             uuidCount := st.uuidCount + 2 },
        [⟨⟨MsgType.audioBufferAppend, some (res a sr), gen st.uuidCount⟩, SendOutcome.dropped⟩,
        ⟨⟨MsgType.audioBufferCommit, some [0], gen (st.uuidCount + 1)⟩, SendOutcome.dropped⟩],
        false⟩)
    : P (send_audio gen res st a sr eid finish env) := by
  by_cases hws : st.websocket = true
  · by_cases hokA : env.okAppend = true
    · by_cases hf : finish = true
      · by_cases hlt : st.bufferedDurationMs
            + calculate_audio_duration_ms (res a sr) HEY_GEN_SAMPLE_RATE < 80
        · by_cases hcl : env.okClear = true
          · by_cases hc : env.okCommit = true
            · rw [hf, send_audio_finish_low gen res st a sr eid env hws hokA hcl hc hlt]
              exact h4 hws hokA hcl hc hf hlt
            · have hc2 : env.okCommit = false := by simpa using hc
              rw [hf, send_audio_finish_low_commit_fail gen res st a sr eid env hws hokA hcl
                hc2 hlt]
              exact h9 hws hokA hcl hc2 hf hlt
          · have hcl2 : env.okClear = false := by simpa using hcl
            rw [hf, send_audio_clear_fail gen res st a sr eid env hws hokA hcl2 hlt]
            exact h8 hws hokA hcl2 hf hlt
        · have hge : 80 ≤ st.bufferedDurationMs
              + calculate_audio_duration_ms (res a sr) HEY_GEN_SAMPLE_RATE := not_lt.mp hlt
          by_cases hc : env.okCommit = true
          · rw [hf, send_audio_finish_commit gen res st a sr eid env hws hokA hc hge]
            exact h3 hws hokA hc hf hge
          · have hc2 : env.okCommit = false := by simpa using hc
            rw [hf, send_audio_finish_commit_fail gen res st a sr eid env hws hokA hc2 hge]
            exact h7 hws hokA hc2 hf hge
      · have hf2 : finish = false := by simpa using hf
        by_cases hgt : st.bufferedDurationMs
            + calculate_audio_duration_ms (res a sr) HEY_GEN_SAMPLE_RATE > 1000
        · by_cases hc : env.okCommit = true
          · rw [hf2, send_audio_commit_high gen res st a sr eid env hws hokA hc hgt]
            exact h2 hws hokA hc hf2 hgt
          · have hc2 : env.okCommit = false := by simpa using hc
            rw [hf2, send_audio_commit_fail_high gen res st a sr eid env hws hokA hc2 hgt]
            exact h6 hws hokA hc2 hf2 hgt
        · have hle : st.bufferedDurationMs
              + calculate_audio_duration_ms (res a sr) HEY_GEN_SAMPLE_RATE ≤ 1000 :=
            not_lt.mp hgt
          rw [hf2, send_audio_append_only gen res st a sr eid env hws hokA hle]
          exact h1 hws hokA hf2 hle
    · have hokA2 : env.okAppend = false := by simpa using hokA
      rw [send_audio_append_fail gen res st a sr eid finish env hws hokA2]
      exact h5 hws hokA2
  · have hws2 : st.websocket = false := by simpa using hws
    by_cases hf : finish = true
    · by_cases hlt : st.bufferedDurationMs
          + calculate_audio_duration_ms (res a sr) HEY_GEN_SAMPLE_RATE < 80
      · rw [hf, send_audio_absent_finish_low gen res st a sr eid env hws2 hlt]
        exact h12 hws2 hf hlt
      · have hge : 80 ≤ st.bufferedDurationMs
            + calculate_audio_duration_ms (res a sr) HEY_GEN_SAMPLE_RATE := not_lt.mp hlt
        rw [hf, send_audio_absent_finish_commit gen res st a sr eid env hws2 hge]
        exact h11 hws2 hf hge
    · have hf2 : finish = false := by simpa using hf
      by_cases hgt : st.bufferedDurationMs
          + calculate_audio_duration_ms (res a sr) HEY_GEN_SAMPLE_RATE > 1000
      · rw [hf2, send_audio_absent_commit_high gen res st a sr eid env hws2 hgt]
        exact h13 hws2 hf2 hgt
      · have hle : st.bufferedDurationMs
            + calculate_audio_duration_ms (res a sr) HEY_GEN_SAMPLE_RATE ≤ 1000 :=
          not_lt.mp hgt
        rw [hf2, send_audio_absent_append_only gen res st a sr eid env hws2 hle]
        exact h10 hws2 hf2 hle

/-! ## Claim theorems -/

/-- Claim C4: for sequences of `send_audio` calls with `finish = false` over a
connected, non-failing channel, an `audio_buffer_commit` message is sent on
exactly the call whose chunk makes the accumulated buffered duration strictly
exceed 1000 ms, and `buffered_duration_ms` is 0 after that call; a call that
leaves the accumulated duration at or below 1000 ms sends only an append — no
commit and no clear.  Stated as the per-call characterization over every
reachable pre-state. -/
theorem C4_high_threshold (gen : Nat → String) (res : List Nat → Nat → List Nat)
    (st : ClientState) (a : List Nat) (sr : Nat) (eid : String) (env : SendEnv)
    (hws : st.websocket = true) (hokA : env.okAppend = true) (hokC : env.okCommit = true) :
    (countType (send_audio gen res st a sr eid false env).trace MsgType.audioBufferCommit = 1
      ↔ st.bufferedDurationMs + calculate_audio_duration_ms (res a sr) HEY_GEN_SAMPLE_RATE
          > 1000) ∧
    countType (send_audio gen res st a sr eid false env).trace MsgType.audioBufferClear = 0 ∧
    (st.bufferedDurationMs + calculate_audio_duration_ms (res a sr) HEY_GEN_SAMPLE_RATE
        > 1000 →
      msgTypes (send_audio gen res st a sr eid false env).trace
          = [MsgType.audioBufferAppend, MsgType.audioBufferCommit] ∧
      (send_audio gen res st a sr eid false env).state.bufferedDurationMs = 0) ∧
    (st.bufferedDurationMs + calculate_audio_duration_ms (res a sr) HEY_GEN_SAMPLE_RATE
        ≤ 1000 →
      msgTypes (send_audio gen res st a sr eid false env).trace
          = [MsgType.audioBufferAppend] ∧
      (send_audio gen res st a sr eid false env).state.bufferedDurationMs
          = st.bufferedDurationMs
              + calculate_audio_duration_ms (res a sr) HEY_GEN_SAMPLE_RATE) := by
  by_cases hgt : st.bufferedDurationMs
      + calculate_audio_duration_ms (res a sr) HEY_GEN_SAMPLE_RATE > 1000
  · have hle2 : ¬ (st.bufferedDurationMs
        + calculate_audio_duration_ms (res a sr) HEY_GEN_SAMPLE_RATE ≤ 1000) :=
      not_le.mpr hgt
    rw [send_audio_commit_high gen res st a sr eid env hws hokA hokC hgt]
    simp [countType, msgTypes, hgt, hle2]
  · have hle : st.bufferedDurationMs
        + calculate_audio_duration_ms (res a sr) HEY_GEN_SAMPLE_RATE ≤ 1000 :=
      not_lt.mp hgt
    rw [send_audio_append_only gen res st a sr eid env hws hokA hle]
    simp [countType, msgTypes, hgt, hle]

/-- Witness for C4 at a concrete input: a 10 ms chunk on top of 995 ms of
buffered audio crosses the 1000 ms threshold and yields append + commit. -/
theorem C4_witness :
    stAlmost.websocket = true ∧ SendEnv.allOk.okAppend = true ∧
    SendEnv.allOk.okCommit = true ∧
    msgTypes (send_audio gen0 res0 stAlmost (List.replicate 480 0) 24000 "utt-4" false
        SendEnv.allOk).trace
      = [MsgType.audioBufferAppend, MsgType.audioBufferCommit] :=
  ⟨rfl, rfl, rfl,
    ((C4_high_threshold gen0 res0 stAlmost (List.replicate 480 0) 24000 "utt-4"
        SendEnv.allOk rfl rfl rfl).2.2.1
      (by norm_num [stAlmost, stConn, res0, calculate_audio_duration_ms,
        HEY_GEN_SAMPLE_RATE, List.length_replicate])).1⟩

/-- Claim C5: `send_audio` with `finish = true` and at least 80 ms accumulated
(over a connected, non-failing channel) sends an `audio_buffer_commit` and no
`audio_buffer_clear`, and `buffered_duration_ms` is 0 afterwards. -/
theorem C5_finish_above_min_commits (gen : Nat → String) (res : List Nat → Nat → List Nat)
    (st : ClientState) (a : List Nat) (sr : Nat) (eid : String) (env : SendEnv)
    (hws : st.websocket = true) (hokA : env.okAppend = true) (hokC : env.okCommit = true)
    (hge : 80 ≤ st.bufferedDurationMs
            + calculate_audio_duration_ms (res a sr) HEY_GEN_SAMPLE_RATE) :
    msgTypes (send_audio gen res st a sr eid true env).trace
        = [MsgType.audioBufferAppend, MsgType.audioBufferCommit] ∧
    countType (send_audio gen res st a sr eid true env).trace MsgType.audioBufferCommit
        = 1 ∧
    countType (send_audio gen res st a sr eid true env).trace MsgType.audioBufferClear
        = 0 ∧
    (∀ e ∈ (send_audio gen res st a sr eid true env).trace,
      e.outcome = SendOutcome.sent) ∧
    (send_audio gen res st a sr eid true env).state.bufferedDurationMs = 0 := by
  rw [send_audio_finish_commit gen res st a sr eid env hws hokA hokC hge]
  simp [countType, msgTypes]

/-- Witness for C5 at a concrete input: 200 ms accumulated, an empty final
chunk and `finish = true` produce append + commit and reset the counter. -/
theorem C5_witness :
    st200.websocket = true ∧ SendEnv.allOk.okAppend = true ∧
    SendEnv.allOk.okCommit = true ∧
    (80 ≤ st200.bufferedDurationMs
      + calculate_audio_duration_ms (res0 [] 24000) HEY_GEN_SAMPLE_RATE) ∧
    msgTypes (send_audio gen0 res0 st200 [] 24000 "utt-5" true SendEnv.allOk).trace
        = [MsgType.audioBufferAppend, MsgType.audioBufferCommit] ∧
    countType (send_audio gen0 res0 st200 [] 24000 "utt-5" true SendEnv.allOk).trace
        MsgType.audioBufferClear = 0 ∧
    (send_audio gen0 res0 st200 [] 24000 "utt-5" true SendEnv.allOk).state.bufferedDurationMs
        = 0 := by
  have hge : (80:ℚ) ≤ st200.bufferedDurationMs
      + calculate_audio_duration_ms (res0 [] 24000) HEY_GEN_SAMPLE_RATE := by
    norm_num [st200, stConn, res0, calculate_audio_duration_ms, HEY_GEN_SAMPLE_RATE]
  have h := C5_finish_above_min_commits gen0 res0 st200 [] 24000 "utt-5" SendEnv.allOk
    rfl rfl rfl hge
  exact ⟨rfl, rfl, rfl, hge, h.1, h.2.2.1, h.2.2.2.2⟩

/-- Claim C10: when the websocket handle is absent, `send_audio` returns
without raising, no message is delivered (all are dropped), and
`buffered_duration_ms` is still incremented by the chunk's duration and the
flush policy is still applied (reset to 0 on `finish` or when the
accumulated duration exceeds 1000 ms). -/
theorem C10_no_websocket (gen : Nat → String) (res : List Nat → Nat → List Nat)
    (st : ClientState) (a : List Nat) (sr : Nat) (eid : String) (finish : Bool)
    (env : SendEnv) (hws : st.websocket = false) :
    (send_audio gen res st a sr eid finish env).raised = false ∧
    (∀ e ∈ (send_audio gen res st a sr eid finish env).trace,
      e.outcome = SendOutcome.dropped) ∧
    (send_audio gen res st a sr eid finish env).state.bufferedDurationMs =
      (if finish = true ∨
          st.bufferedDurationMs + calculate_audio_duration_ms (res a sr) HEY_GEN_SAMPLE_RATE
            > 1000
       then 0
       else st.bufferedDurationMs
              + calculate_audio_duration_ms (res a sr) HEY_GEN_SAMPLE_RATE) ∧
    (send_audio gen res st a sr eid finish env).state.websocket = false :=
  send_audio_absent gen res st a sr eid finish env hws

/-- Witness for C10 at a concrete input: a 50 ms chunk sent with no websocket
handle raises nothing and still accumulates 50 ms. -/
theorem C10_witness :
    stNoWs.websocket = false ∧
    (send_audio gen0 res0 stNoWs (List.replicate 2400 0) 24000 "utt-10" false
        SendEnv.allOk).raised = false ∧
    (send_audio gen0 res0 stNoWs (List.replicate 2400 0) 24000 "utt-10" false
        SendEnv.allOk).state.bufferedDurationMs = 50 := by
  have h := C10_no_websocket gen0 res0 stNoWs (List.replicate 2400 0) 24000 "utt-10" false
    SendEnv.allOk rfl
  refine ⟨rfl, h.1, ?_⟩
  rw [h.2.2.1]
  norm_num [stNoWs, res0, calculate_audio_duration_ms, HEY_GEN_SAMPLE_RATE,
    List.length_replicate]

/-- Counterexample to claim C1 as stated: a single 50 ms chunk with
`finish = true` over a connected channel (accumulated duration 50 ms, below
the 80 ms minimum) produces the trace append, clear, commit — an
`audio_buffer_commit` IS sent on that call, because the source's two flush
checks are independent `if` statements and `finish` is still true after the
clear branch runs. -/
theorem C1_counterexample :
    msgTypes (send_audio gen0 res0 stConn (List.replicate 2400 0) 24000 "utt-1" true
        SendEnv.allOk).trace
      = [MsgType.audioBufferAppend, MsgType.audioBufferClear,
         MsgType.audioBufferCommit] := by
  have h50 : stConn.bufferedDurationMs
      + calculate_audio_duration_ms (res0 (List.replicate 2400 0) 24000)
          HEY_GEN_SAMPLE_RATE < 80 := by
    norm_num [stConn, res0, calculate_audio_duration_ms, HEY_GEN_SAMPLE_RATE,
      List.length_replicate]
  rw [send_audio_finish_low gen0 res0 stConn (List.replicate 2400 0) 24000 "utt-1"
    SendEnv.allOk rfl rfl rfl rfl h50]
  rfl

/-- Claim C1 (amended): for every sequence of `finish = false` calls over a
connected, non-failing channel whose resampled audio, together with the final
chunk, accumulates to strictly below 80 ms, a final call with `finish = true`
sends exactly one `audio_buffer_clear` and resets `buffered_duration_ms` to
0 — but that final call ALSO sends exactly one `audio_buffer_commit` message,
immediately after the clear, because the source's two flush checks are
independent `if` statements rather than an if/elif chain. -/
theorem C1_low_finish_clears_then_commits (gen : Nat → String)
    (res : List Nat → Nat → List Nat) (st : ClientState) (priors : List CallInput)
    (a : List Nat) (sr : Nat) (eid : String)
    (hws : st.websocket = true) (hb : st.bufferedDurationMs = 0)
    (hpri : ∀ c ∈ priors, c.finish = false ∧ c.env.okAppend = true)
    (htot : sumDur res priors
        + calculate_audio_duration_ms (res a sr) HEY_GEN_SAMPLE_RATE < 80) :
    (∀ q ∈ (runCalls gen res st priors).2,
      msgTypes q.trace = [MsgType.audioBufferAppend]) ∧
    msgTypes (send_audio gen res (runCalls gen res st priors).1 a sr eid true
        SendEnv.allOk).trace
      = [MsgType.audioBufferAppend, MsgType.audioBufferClear,
         MsgType.audioBufferCommit] ∧
    countType (send_audio gen res (runCalls gen res st priors).1 a sr eid true
        SendEnv.allOk).trace MsgType.audioBufferClear = 1 ∧
    countType (send_audio gen res (runCalls gen res st priors).1 a sr eid true
        SendEnv.allOk).trace MsgType.audioBufferCommit = 1 ∧
    (send_audio gen res (runCalls gen res st priors).1 a sr eid true
        SendEnv.allOk).state.bufferedDurationMs = 0 := by
  have hd := calculate_audio_duration_ms_nonneg (res a sr) HEY_GEN_SAMPLE_RATE
  have hsp := sumDur_nonneg res priors
  have hrun := runCalls_no_flush gen res priors st hws (by simp [hb]) hpri
    (by rw [hb]; linarith)
  have hlt : (runCalls gen res st priors).1.bufferedDurationMs
      + calculate_audio_duration_ms (res a sr) HEY_GEN_SAMPLE_RATE < 80 := by
    rw [hrun.1, hb]
    linarith
  have heq := send_audio_finish_low gen res (runCalls gen res st priors).1 a sr eid
    SendEnv.allOk hrun.2.1 rfl rfl rfl hlt
  refine ⟨fun q hq => (hrun.2.2 q hq).1, ?_, ?_, ?_, ?_⟩
  all_goals rw [heq]
  all_goals simp [msgTypes, countType]

/-- Witness for the amended C1: one 10 ms prior chunk, then a 50 ms final
chunk with `finish = true` (total 60 ms < 80 ms): the final call emits one
clear and also one commit, and the counter is 0. -/
theorem C1_witness :
    stConn.websocket = true ∧ stConn.bufferedDurationMs = 0 ∧
    (∀ c ∈ c1priors, c.finish = false ∧ c.env.okAppend = true) ∧
    sumDur res0 c1priors
        + calculate_audio_duration_ms (res0 (List.replicate 2400 0) 24000)
            HEY_GEN_SAMPLE_RATE < 80 ∧
    countType (send_audio gen0 res0 (runCalls gen0 res0 stConn c1priors).1
        (List.replicate 2400 0) 24000 "utt-1w" true SendEnv.allOk).trace
      MsgType.audioBufferClear = 1 ∧
    countType (send_audio gen0 res0 (runCalls gen0 res0 stConn c1priors).1
        (List.replicate 2400 0) 24000 "utt-1w" true SendEnv.allOk).trace
      MsgType.audioBufferCommit = 1 ∧
    (send_audio gen0 res0 (runCalls gen0 res0 stConn c1priors).1
        (List.replicate 2400 0) 24000 "utt-1w" true
        SendEnv.allOk).state.bufferedDurationMs = 0 := by
  have hpri : ∀ c ∈ c1priors, c.finish = false ∧ c.env.okAppend = true := by
    decide
  have htot : sumDur res0 c1priors
      + calculate_audio_duration_ms (res0 (List.replicate 2400 0) 24000)
          HEY_GEN_SAMPLE_RATE < 80 := by
    norm_num [sumDur, durationOf, c1priors, c1prior, res0, calculate_audio_duration_ms,
      HEY_GEN_SAMPLE_RATE, List.length_replicate]
  have h := C1_low_finish_clears_then_commits gen0 res0 stConn c1priors
    (List.replicate 2400 0) 24000 "utt-1w" rfl rfl hpri htot
  exact ⟨rfl, rfl, hpri, htot, h.2.2.1, h.2.2.2.1, h.2.2.2.2⟩

/-- Counterexample to claim C2 as stated: with the channel connected and the
underlying send raising, `interrupt` propagates the error to its caller —
`_ws_send` logs and then unconditionally re-raises (`raise e`), and
`interrupt` has no handler — so the control-message error is NOT swallowed. -/
theorem C2_counterexample : (interrupt gen0 stConn false).raised = true := by
  decide

/-- Claim C2 (amended): when the channel is connected and the underlying send
raises, `_ws_send` logs and re-raises for EVERY caller: the control-message
operations `interrupt`, `start_agent_listening` and `stop_agent_listening`
propagate the error to the caller exactly as the audio_buffer
append/commit/clear path of `send_audio` does. -/
theorem C2_all_senders_reraise (gen : Nat → String) (res : List Nat → Nat → List Nat)
    (st : ClientState) (a : List Nat) (sr : Nat) (eid : String) (finish : Bool)
    (env : SendEnv) (hws : st.websocket = true) (hfail : env.okAppend = false) :
    (interrupt gen st false).raised = true ∧
    (start_agent_listening gen st false).raised = true ∧
    (stop_agent_listening gen st false).raised = true ∧
    (send_audio gen res st a sr eid finish env).raised = true := by
  refine ⟨?_, ?_, ?_, ?_⟩
  · simp [interrupt, uuid4, ws_send, hws]
  · simp [start_agent_listening, uuid4, ws_send, hws]
  · simp [stop_agent_listening, uuid4, ws_send, hws]
  · rw [send_audio_append_fail gen res st a sr eid finish env hws hfail]

/-- Witness for the amended C2 at a concrete connected state with failing
sends. -/
theorem C2_witness :
    stConn.websocket = true ∧
    (interrupt gen0 stConn false).raised = true ∧
    (start_agent_listening gen0 stConn false).raised = true ∧
    (stop_agent_listening gen0 stConn false).raised = true ∧
    (send_audio gen0 res0 stConn [] 24000 "utt-2" false
        { okAppend := false, okClear := false, okCommit := false }).raised = true := by
  have h := C2_all_senders_reraise gen0 res0 stConn [] 24000 "utt-2" false
    { okAppend := false, okClear := false, okCommit := false } rfl rfl
  exact ⟨rfl, h.1, h.2.1, h.2.2.1, h.2.2.2⟩

/-- `send_audio` preserves nonnegativity of the buffered duration in every
region (present/absent handle, any send failing, any flush branch). -/
lemma send_audio_buffered_nonneg (gen : Nat → String) (res : List Nat → Nat → List Nat)
    (st : ClientState) (a : List Nat) (sr : Nat) (eid : String) (finish : Bool)
    (env : SendEnv) (hb : 0 ≤ st.bufferedDurationMs) :
    0 ≤ (send_audio gen res st a sr eid finish env).state.bufferedDurationMs := by
  have hd := calculate_audio_duration_ms_nonneg (res a sr) HEY_GEN_SAMPLE_RATE
  apply send_audio_cases gen res st a sr eid finish env
    (fun r => 0 ≤ r.state.bufferedDurationMs)
  all_goals intros
  all_goals simp
  all_goals linarith

/-- Nonnegativity of the buffered duration along any sequence of calls. -/
lemma runCalls_buffered_nonneg (gen : Nat → String) (res : List Nat → Nat → List Nat) :
    ∀ (cs : List CallInput) (st : ClientState), 0 ≤ st.bufferedDurationMs →
      0 ≤ (runCalls gen res st cs).1.bufferedDurationMs
  | [], st => fun hb => by simpa [runCalls] using hb
  | c :: cs, st => fun hb => by
    simp only [runCalls]
    exact runCalls_buffered_nonneg gen res cs _
      (send_audio_buffered_nonneg gen res st c.audio c.sample_rate c.event_id c.finish
        c.env hb)

/-- Claim C3: `buffered_duration_ms` is an invariant-preserving counter.  For
every call (any environment, any flush branch): it stays nonnegative; when
the call emits no clear and no commit it only increases (by the chunk's
duration); and it is 0 at the end of any call that emitted a clear or a
commit whose send did not raise.  Along every sequence of `send_audio` calls
it stays nonnegative. -/
theorem C3_buffered_duration_invariant (gen : Nat → String)
    (res : List Nat → Nat → List Nat) (st : ClientState) (a : List Nat) (sr : Nat)
    (eid : String) (finish : Bool) (env : SendEnv) (cs : List CallInput)
    (hb : 0 ≤ st.bufferedDurationMs) :
    (0 ≤ (send_audio gen res st a sr eid finish env).state.bufferedDurationMs) ∧
    ((∀ e ∈ (send_audio gen res st a sr eid finish env).trace,
        e.msg.type ≠ MsgType.audioBufferClear ∧ e.msg.type ≠ MsgType.audioBufferCommit) →
      st.bufferedDurationMs
        ≤ (send_audio gen res st a sr eid finish env).state.bufferedDurationMs) ∧
    ((∃ e ∈ (send_audio gen res st a sr eid finish env).trace,
        e.msg.type = MsgType.audioBufferClear ∧ e.outcome ≠ SendOutcome.failed) →
      (send_audio gen res st a sr eid finish env).state.bufferedDurationMs = 0) ∧
    ((∃ e ∈ (send_audio gen res st a sr eid finish env).trace,
        e.msg.type = MsgType.audioBufferCommit ∧ e.outcome ≠ SendOutcome.failed) →
      (send_audio gen res st a sr eid finish env).state.bufferedDurationMs = 0) ∧
    0 ≤ (runCalls gen res st cs).1.bufferedDurationMs := by
  have hd := calculate_audio_duration_ms_nonneg (res a sr) HEY_GEN_SAMPLE_RATE
  have hmain : (0 ≤ (send_audio gen res st a sr eid finish env).state.bufferedDurationMs) ∧
      ((∀ e ∈ (send_audio gen res st a sr eid finish env).trace,
          e.msg.type ≠ MsgType.audioBufferClear ∧ e.msg.type ≠ MsgType.audioBufferCommit) →
        st.bufferedDurationMs
          ≤ (send_audio gen res st a sr eid finish env).state.bufferedDurationMs) ∧
      ((∃ e ∈ (send_audio gen res st a sr eid finish env).trace,
          e.msg.type = MsgType.audioBufferClear ∧ e.outcome ≠ SendOutcome.failed) →
        (send_audio gen res st a sr eid finish env).state.bufferedDurationMs = 0) ∧
      ((∃ e ∈ (send_audio gen res st a sr eid finish env).trace,
          e.msg.type = MsgType.audioBufferCommit ∧ e.outcome ≠ SendOutcome.failed) →
        (send_audio gen res st a sr eid finish env).state.bufferedDurationMs = 0) := by
    apply send_audio_cases gen res st a sr eid finish env
      (fun r => (0 ≤ r.state.bufferedDurationMs) ∧
        ((∀ e ∈ r.trace,
            e.msg.type ≠ MsgType.audioBufferClear ∧ e.msg.type ≠ MsgType.audioBufferCommit) →
          st.bufferedDurationMs ≤ r.state.bufferedDurationMs) ∧
        ((∃ e ∈ r.trace,
            e.msg.type = MsgType.audioBufferClear ∧ e.outcome ≠ SendOutcome.failed) →
          r.state.bufferedDurationMs = 0) ∧
        ((∃ e ∈ r.trace,
            e.msg.type = MsgType.audioBufferCommit ∧ e.outcome ≠ SendOutcome.failed) →
          r.state.bufferedDurationMs = 0))
    all_goals intros
    all_goals refine ⟨?_, fun hno => ?_, fun hcl => ?_, fun hcm => ?_⟩
    all_goals try simp_all
    all_goals linarith
  exact ⟨hmain.1, hmain.2.1, hmain.2.2.1, hmain.2.2.2,
    runCalls_buffered_nonneg gen res cs st hb⟩

/-- Witness for C3 at a concrete input: a connected state with 0 ms buffered
and a 50 ms chunk with `finish = false` keeps the counter nonnegative (it
becomes 50 ms). -/
theorem C3_witness :
    (0:ℚ) ≤ stConn.bufferedDurationMs ∧
    0 ≤ (send_audio gen0 res0 stConn (List.replicate 2400 0) 24000 "utt-3" false
        SendEnv.allOk).state.bufferedDurationMs ∧
    0 ≤ (runCalls gen0 res0 stConn c1priors).1.bufferedDurationMs := by
  have h := C3_buffered_duration_invariant gen0 res0 stConn (List.replicate 2400 0) 24000
    "utt-3" false SendEnv.allOk c1priors le_rfl
  exact ⟨le_rfl, h.1, h.2.2.2.2⟩

/-- The event ids of every `send_audio` trace are the consecutively drawn
identifiers of the UUID stream, starting at the state's counter. -/
lemma send_audio_event_ids (gen : Nat → String) (res : List Nat → Nat → List Nat)
    (st : ClientState) (a : List Nat) (sr : Nat) (eid : String) (finish : Bool)
    (env : SendEnv) :
    (send_audio gen res st a sr eid finish env).trace.map (fun e => e.msg.event_id)
      = (List.range' st.uuidCount
          (send_audio gen res st a sr eid finish env).trace.length).map gen := by
  apply send_audio_cases gen res st a sr eid finish env
    (fun r => r.trace.map (fun e => e.msg.event_id)
      = (List.range' st.uuidCount r.trace.length).map gen)
  all_goals intros
  all_goals simp [List.range']

/-- Claim C9: every outbound wire message carries an `event_id` drawn freshly
from the UUID stream — `send_audio`'s append/clear/commit messages carry the
consecutively generated identifiers (`gen` applied to successive counter
values), and the interrupt / start-listening / stop-listening messages carry
the next generated identifier — and the caller-supplied `event_id` argument
of `send_audio` is never placed in any outbound message (whenever the UUID
stream avoids that string, no message carries it). -/
theorem C9_fresh_event_ids (gen : Nat → String) (res : List Nat → Nat → List Nat)
    (st : ClientState) (a : List Nat) (sr : Nat) (eid : String) (finish : Bool)
    (env : SendEnv) (ok : Bool) (hfresh : ∀ k, gen k ≠ eid) :
    ((send_audio gen res st a sr eid finish env).trace.map (fun e => e.msg.event_id)
      = (List.range' st.uuidCount
          (send_audio gen res st a sr eid finish env).trace.length).map gen) ∧
    (∀ e ∈ (send_audio gen res st a sr eid finish env).trace,
      e.msg.event_id ≠ eid) ∧
    ((interrupt gen st ok).trace.map (fun e => e.msg.event_id) = [gen st.uuidCount]) ∧
    ((start_agent_listening gen st ok).trace.map (fun e => e.msg.event_id)
      = [gen st.uuidCount]) ∧
    ((stop_agent_listening gen st ok).trace.map (fun e => e.msg.event_id)
      = [gen st.uuidCount]) := by
  have hmap := send_audio_event_ids gen res st a sr eid finish env
  refine ⟨hmap, ?_, ?_, ?_, ?_⟩
  · intro e he heq
    have hmem : e.msg.event_id
        ∈ (send_audio gen res st a sr eid finish env).trace.map
            (fun e => e.msg.event_id) :=
      List.mem_map_of_mem _ he
    rw [hmap] at hmem
    obtain ⟨k, _, hk⟩ := List.mem_map.mp hmem
    exact hfresh k (hk.trans heq)
  · unfold interrupt uuid4 ws_send
    rcases Bool.eq_false_or_eq_true st.websocket with hw | hw <;>
      rcases Bool.eq_false_or_eq_true ok with ho | ho <;> simp [hw, ho]
  · unfold start_agent_listening uuid4 ws_send
    rcases Bool.eq_false_or_eq_true st.websocket with hw | hw <;>
      rcases Bool.eq_false_or_eq_true ok with ho | ho <;> simp [hw, ho]
  · unfold stop_agent_listening uuid4 ws_send
    rcases Bool.eq_false_or_eq_true st.websocket with hw | hw <;>
      rcases Bool.eq_false_or_eq_true ok with ho | ho <;> simp [hw, ho]

/-- Witness for C9 at a concrete input: a UUID stream of nonempty strings
and the empty caller id. -/
theorem C9_witness :
    (∀ k, gen0 k ≠ "") ∧
    (∀ e ∈ (send_audio gen0 res0 stConn [] 24000 "" true SendEnv.allOk).trace,
      e.msg.event_id ≠ "") ∧
    ((interrupt gen0 stConn true).trace.map (fun e => e.msg.event_id)
      = [gen0 stConn.uuidCount]) := by
  have hfresh : ∀ k, gen0 k ≠ "" := by
    intro k h
    have hlen := congrArg String.length h
    simp [gen0, String.length_append] at hlen
    exact absurd hlen.1 (by decide)
  have h := C9_fresh_event_ids gen0 res0 stConn [] 24000 "" true SendEnv.allOk true hfresh
  exact ⟨hfresh, h.2.1, h.2.2.1⟩

/-- Claim C6: `setup` is idempotent — after a successful first `setup` (the
remote create succeeds with session `s` and the remote start succeeds), a
second `setup` with no intervening `cleanup` performs no remote call at all:
across both calls, create and start are each invoked exactly once. -/
theorem C6_setup_idempotent (st : ClientState) (env1 env2 : ApiEnv) (s : HeyGenSession)
    (hs : st.heyGenSession = none) (hnew : env1.newSessionResult = some s)
    (hstart : env1.startOk = true) :
    (setup st env1).2.1 = [ApiCall.newSession, ApiCall.startSession s.session_id] ∧
    (setup (setup st env1).1 env2).2.1 = [] ∧
    ((setup st env1).2.1 ++ (setup (setup st env1).1 env2).2.1).countP isNewSession
        = 1 ∧
    ((setup st env1).2.1 ++ (setup (setup st env1).1 env2).2.1).countP isStartSession
        = 1 := by
  have h1 : setup st env1
      = ({ st with heyGenSession := some s },
         [ApiCall.newSession, ApiCall.startSession s.session_id], false) := by
    simp [setup, initializeClient, hs, hnew, hstart]
  have h2 : (setup ({ st with heyGenSession := some s }) env2).2.1 = [] := by
    simp [setup]
  rw [h1]
  refine ⟨rfl, h2, ?_, ?_⟩
  · rw [h2]
    simp [isNewSession, isStartSession]
  · rw [h2]
    simp [isNewSession, isStartSession]

/-- Witness for C6: a fresh client, a successful environment; the second
`setup` performs no API call. -/
theorem C6_witness :
    stInit.heyGenSession = none ∧ apiEnvGood.newSessionResult = some sess0 ∧
    apiEnvGood.startOk = true ∧
    (setup stInit apiEnvGood).2.1
        = [ApiCall.newSession, ApiCall.startSession sess0.session_id] ∧
    (setup (setup stInit apiEnvGood).1 apiEnvGood).2.1 = [] := by
  have h := C6_setup_idempotent stInit apiEnvGood apiEnvGood sess0 rfl rfl rfl
  exact ⟨rfl, rfl, rfl, h.1, h.2.1⟩

/-- Claim C7: if during `setup` the remote new-session call succeeds with
session `s` but the remote start-session call raises, then `cleanup` runs
automatically: the call trace is exactly create, start, close — the
close-session call carries the created session's id — `setup` itself does
not raise, and (when the close call succeeds) no session is left on the
client. -/
theorem C7_cleanup_on_start_failure (st : ClientState) (env : ApiEnv)
    (s : HeyGenSession) (hs : st.heyGenSession = none)
    (hnew : env.newSessionResult = some s) (hstart : env.startOk = false) :
    (setup st env).2.1
        = [ApiCall.newSession, ApiCall.startSession s.session_id,
           ApiCall.closeSession s.session_id] ∧
    (setup st env).2.2 = false ∧
    (env.closeOk = true → (setup st env).1.heyGenSession = none) := by
  have h1 : initializeClient st env
      = ({ st with heyGenSession := some s },
         [ApiCall.newSession, ApiCall.startSession s.session_id], true) := by
    simp [initializeClient, hnew, hstart]
  by_cases hc : env.closeOk = true
  · have h2 : setup st env
        = ({ st with heyGenSession := none, connected := false, bufferedDurationMs := 0 },
           [ApiCall.newSession, ApiCall.startSession s.session_id,
            ApiCall.closeSession s.session_id], false) := by
      simp [setup, hs, h1, cleanup, hc]
    rw [h2]
    exact ⟨rfl, rfl, fun _ => rfl⟩
  · have hc2 : env.closeOk = false := by simpa using hc
    have h2 : setup st env
        = ({ st with heyGenSession := some s },
           [ApiCall.newSession, ApiCall.startSession s.session_id,
            ApiCall.closeSession s.session_id], false) := by
      simp [setup, hs, h1, cleanup, hc2]
    rw [h2]
    exact ⟨rfl, rfl, fun hck => absurd hck hc⟩

/-- Witness for C7: concrete fresh client and an environment whose start
call raises; the close-session call for `sess-1` appears in the trace. -/
theorem C7_witness :
    stInit.heyGenSession = none ∧ apiEnvStartFail.newSessionResult = some sess0 ∧
    apiEnvStartFail.startOk = false ∧
    (setup stInit apiEnvStartFail).2.1
        = [ApiCall.newSession, ApiCall.startSession sess0.session_id,
           ApiCall.closeSession sess0.session_id] ∧
    (setup stInit apiEnvStartFail).1.heyGenSession = none := by
  have h := C7_cleanup_on_start_failure stInit apiEnvStartFail sess0 rfl rfl rfl
  exact ⟨rfl, rfl, rfl, h.1, h.2.2 rfl⟩

/-- `_ws_disconnect` never raises. -/
lemma ws_disconnect_no_raise (st : ClientState) (ok : Bool) :
    (ws_disconnect st ok).2 = false := by
  unfold ws_disconnect
  split_ifs <;> rfl

/-- `_ws_disconnect` does not touch the session reference. -/
lemma ws_disconnect_session (st : ClientState) (ok : Bool) :
    ((ws_disconnect st ok).1).heyGenSession = st.heyGenSession := by
  unfold ws_disconnect
  split_ifs <;> rfl

/-- `cleanup` never raises (the close-session exception is caught). -/
lemma cleanup_no_raise (st : ClientState) (ok : Bool) : (cleanup st ok).2.2 = false := by
  cases hsess : st.heyGenSession with
  | none => simp [cleanup, hsess]
  | some s =>
    simp only [cleanup, hsess]
    split_ifs <;> rfl

/-- A successful close-session during `cleanup` clears the session. -/
lemma cleanup_ok_clears_session (st : ClientState) :
    ((cleanup st true).1).heyGenSession = none := by
  cases hsess : st.heyGenSession with
  | none => simp [cleanup, hsess]
  | some s => simp [cleanup, hsess]

/-- `cleanup` with no session held does nothing. -/
lemma cleanup_none_trace (st : ClientState) (ok : Bool) (h : st.heyGenSession = none) :
    cleanup st ok = (st, [], false) := by
  simp [cleanup, h]

/-- Counterexample to claim C8 as stated: if the first `stop`'s close-session
call raises (the exception is caught inside `cleanup`, which then leaves
`_heyGen_session` set), the second `stop` performs another close-session
call — so "the second call performs no close-session call" fails. -/
theorem C8_counterexample :
    (stop (stop stConn stopEnvBad).1 stopEnvOk).2.1
      = [ApiCall.closeSession "sess-1"] := by
  decide

/-- Claim C8 (amended): `stop` never raises — calling it twice in a row is
exception-free for every environment — and whenever the first `stop`'s
close-session call does not raise (in particular whenever there is no
session), the second `stop` performs no close-session call; a close-session
call that raised is retried by the next `stop`. -/
theorem C8_stop_idempotent (st : ClientState) (env1 env2 : StopEnv) :
    (stop st env1).2.2 = false ∧
    (stop (stop st env1).1 env2).2.2 = false ∧
    (env1.closeSessionOk = true → (stop (stop st env1).1 env2).2.1 = []) := by
  refine ⟨?_, ?_, ?_⟩
  · show ((ws_disconnect st env1.closeWsOk).2
      || (cleanup (ws_disconnect st env1.closeWsOk).1 env1.closeSessionOk).2.2) = false
    rw [ws_disconnect_no_raise, cleanup_no_raise]
    rfl
  · show ((ws_disconnect (stop st env1).1 env2.closeWsOk).2
      || (cleanup (ws_disconnect (stop st env1).1 env2.closeWsOk).1
            env2.closeSessionOk).2.2) = false
    rw [ws_disconnect_no_raise, cleanup_no_raise]
    rfl
  · intro hok
    have hsess1 : ((stop st env1).1).heyGenSession = none := by
      show ((cleanup (ws_disconnect st env1.closeWsOk).1
          env1.closeSessionOk).1).heyGenSession = none
      rw [hok]
      exact cleanup_ok_clears_session _
    have hsess2 : ((ws_disconnect (stop st env1).1 env2.closeWsOk).1).heyGenSession
        = none := by
      rw [ws_disconnect_session]
      exact hsess1
    show (cleanup (ws_disconnect (stop st env1).1 env2.closeWsOk).1
        env2.closeSessionOk).2.1 = []
    rw [cleanup_none_trace _ _ hsess2]

/-- Witness for the amended C8 at a concrete connected state with a session:
two successful stops, neither raising, the second making no API call. -/
theorem C8_witness :
    (stop stConn stopEnvOk).2.2 = false ∧
    (stop (stop stConn stopEnvOk).1 stopEnvOk).2.2 = false ∧
    stopEnvOk.closeSessionOk = true ∧
    (stop (stop stConn stopEnvOk).1 stopEnvOk).2.1 = [] := by
  have h := C8_stop_idempotent stConn stopEnvOk stopEnvOk
  exact ⟨h.1, h.2.1, rfl, h.2.2 rfl⟩

end HeyGen
